import Mathlib

/-!
Verification of the single-tree evaluation harness (`scripts/test-single.py`).

The harness walks plot directories, loads a ground-truth measurement entry
from a geojson record, invokes an external measurement tool on each capture
file, reconciles the tool's estimates against the ground truth, and appends
tab-separated rows to a report file.

The embedding below models the script's data and control flow directly:

* JSON leaf values reaching the script are either strings or numbers.  The
  script performs no arithmetic on numbers — they are only compared against
  string sentinels (always `False` in Python across types) and rendered into
  the output — so a number is carried as its rendered decimal text.
* Python exceptions (`KeyError`, `TypeError`, `json.JSONDecodeError`) are
  modelled with an error type; the run returns the state reached so far
  together with the exception that aborted it, if any.
* The report file is modelled as the list of rows appended so far; opening
  `"test.tsv"` with mode `"w"` truncates it, so the initial state is empty.
-/

/-- A JSON leaf value as the script sees it: a string, or a number carried as
its decimal text (the script never computes with numbers, it only renders
them). -/
inductive JVal where
  | str (s : String)
  | num (s : String)
deriving DecidableEq, Repr

/-- Python exceptions the script can raise. -/
inductive PyError where
  | keyError (k : String)
  | typeError
  | jsonDecodeError
deriving DecidableEq, Repr

/-- `leadsList needle hay`: `needle` is an initial run of `hay`. -/
def leadsList : List Char → List Char → Bool
  | [], _ => true
  | _ :: _, [] => false
  | a :: as, b :: bs => a == b && leadsList as bs

/-- `needle` occurs as a contiguous run somewhere in `hay`. -/
def infixList (needle : List Char) : List Char → Bool
  | [] => leadsList needle []
  | b :: bs => leadsList needle (b :: bs) || infixList needle bs

/-- Substring containment, the semantics of Python's `needle in hay` for
strings. -/
def strContains (hay needle : String) : Bool :=
  infixList needle.data hay.data

/-- Python's `hay.endswith(needle)`. -/
def strEndsWith (hay needle : String) : Bool :=
  leadsList needle.data.reverse hay.data.reverse

/-- Python `v == lit` for a JSON leaf against a string literal: numbers never
equal a string. -/
def jvalEqStr (v : JVal) (lit : String) : Bool :=
  match v with
  | .str s => s == lit
  | .num _ => false

/-- Python `v != ""`, negated: a JSON leaf is the empty string. -/
def jvalIsEmptyStr (v : JVal) : Bool :=
  match v with
  | .str s => s == ""
  | .num _ => false

/-- Rendering of a JSON leaf by an f-string. -/
def JVal.render : JVal → String
  | .str s => s
  | .num s => s

/-- Python `"-" in v` (line 49): substring test on a string, `TypeError` on a
number (a float is not iterable). -/
def containsDash : JVal → Except PyError Bool
  | .str s => .ok (strContains s "-")
  | .num _ => .error .typeError

/-- One measurement entry of `data["properties"]["measurements"]`: a dict,
modelled by optional presence of the keys the script reads. -/
structure Entry where
  source : Option JVal
  dbh : Option JVal
  crownBaseHeight : Option JVal
  height : Option JVal
  crownDiameter : Option JVal
deriving DecidableEq, Repr

/-- Lines 38-41: the entry is used when the `source` key is present and its
value equals `"FI"`. -/
def isFI (e : Entry) : Bool :=
  match e.source with
  | none => false
  | some v => jvalEqStr v "FI"

/-- The four normalized ground-truth targets (lines 42-52). -/
structure Targets where
  trunkDiameter : JVal
  crownHeight : JVal
  height : JVal
  crownDiameter : JVal
deriving DecidableEq, Repr

/-- Dict indexing `entry[k]`: `KeyError` when the key is missing. -/
def getKey (field : Option JVal) (k : String) : Except PyError JVal :=
  match field with
  | some v => .ok v
  | none => .error (.keyError k)

/-- Lines 47-52: sentinel normalization of the extracted targets, in source
order — `height == "NA"`, then `"-" in crown_height`, then
`crown_diameter == "NA"`.  The trunk diameter is never normalized. -/
def normalizeTargets (td ch h cd : JVal) : Except PyError Targets :=
  let h' := if jvalEqStr h "NA" then JVal.str "" else h
  match containsDash ch with
  | .error e => .error e
  | .ok dash =>
    let ch' := if dash then JVal.str "" else ch
    let cd' := if jvalEqStr cd "NA" then JVal.str "" else cd
    .ok ⟨td, ch', h', cd'⟩

/-- Lines 42-52: unguarded extraction of the four metric keys from an FI
entry, then normalization. -/
def extractEntry (e : Entry) : Except PyError Targets :=
  match getKey e.dbh "DBH_cm" with
  | .error err => .error err
  | .ok td =>
    match getKey e.crownBaseHeight "crown_base_height_m" with
    | .error err => .error err
    | .ok ch =>
      match getKey e.height "height_m" with
      | .error err => .error err
      | .ok h =>
        match getKey e.crownDiameter "mean_crown_diameter_m" with
        | .error err => .error err
        | .ok cd => normalizeTargets td ch h cd

/-- Lines 36-53: scan the measurement entries for the first FI-sourced one;
`none` means no usable ground truth (the plot is skipped). -/
def findFI : List Entry → Except PyError (Option Targets)
  | [] => .ok none
  | e :: rest =>
    if isFI e then
      match extractEntry e with
      | .ok t => .ok (some t)
      | .error err => .error err
    else findFI rest

/-- The parsed tool result (the JSON on the diagnostic channel), a dict with
optional presence of the keys the script reads. -/
structure ToolResult where
  dbh : Option JVal
  crownBaseHeight : Option JVal
  height : Option JVal
  crownDiameter : Option JVal
deriving DecidableEq, Repr

/-- Lines 68-83: an estimate is read from the tool result only when the
corresponding target is nonempty; otherwise it is the empty string. -/
def maskEstimate (target : JVal) (field : Option JVal) (k : String) :
    Except PyError JVal :=
  if jvalIsEmptyStr target then .ok (.str "")
  else getKey field k

/-- Line 59 and line 98 of the first script section: requested platform
tags. -/
def TYPES : List String := ["ALS", "ULS", "TLS"]

/-- Lines 57-60: a capture file takes part when it ends in `.laz` and its
name contains one of the platform tags. -/
def captureSelected (file : String) : Bool :=
  strEndsWith file ".laz" && TYPES.any (fun t => strContains file t)

/-- Lines 85-93: per-platform padding (before, after) around each
estimate. -/
def padding (file : String) : String × String :=
  if strContains file "ALS" then ("", "\t\t")
  else if strContains file "ULS" then ("\t", "\t")
  else ("\t\t", "")

/-- One report row: the four (target text, estimate text) pairs in write
order, with the platform padding used for every metric of the row. -/
structure Row where
  trunkPair : String × String
  crownHeightPair : String × String
  heightPair : String × String
  crownDiameterPair : String × String
  before : String
  after : String
deriving DecidableEq, Repr

/-- The four pairs of a row in the order they are written (lines 95-98). -/
def Row.pairs (r : Row) : List (String × String) :=
  [r.trunkPair, r.crownHeightPair, r.heightPair, r.crownDiameterPair]

/-- One metric's text in the row: `f"{target}\t{before}{estimate}{after}"`
followed by the separator (`"\t"`, or `"\n"` for the last metric). -/
def renderCell (p : String × String) (before after sep : String) : String :=
  p.1 ++ "\t" ++ before ++ p.2 ++ after ++ sep

/-- Lines 95-98: the full text of one row. -/
def Row.render (r : Row) : String :=
  renderCell r.trunkPair r.before r.after "\t" ++
  renderCell r.crownHeightPair r.before r.after "\t" ++
  renderCell r.heightPair r.before r.after "\t" ++
  renderCell r.crownDiameterPair r.before r.after "\n"

/-- Lines 68-98 (up to the write): build the row for one successful capture:
mask the four estimates in source order, then pick the padding from the
filename. -/
def makeRow (t : Targets) (res : ToolResult) (file : String) :
    Except PyError Row :=
  match maskEstimate t.trunkDiameter res.dbh "DBH_cm" with
  | .error err => .error err
  | .ok rtd =>
    match maskEstimate t.crownHeight res.crownBaseHeight "crown_base_height_m" with
    | .error err => .error err
    | .ok rch =>
      match maskEstimate t.height res.height "height_m" with
      | .error err => .error err
      | .ok rh =>
        match maskEstimate t.crownDiameter res.crownDiameter "mean_crown_diameter_m" with
        | .error err => .error err
        | .ok rcd =>
          .ok { trunkPair := (t.trunkDiameter.render, rtd.render)
                crownHeightPair := (t.crownHeight.render, rch.render)
                heightPair := (t.height.render, rh.render)
                crownDiameterPair := (t.crownDiameter.render, rcd.render)
                before := (padding file).1
                after := (padding file).2 }

/-- One tool invocation on a capture file.  `stderr` is the decoded
diagnostic channel; `parse` is the outcome `json.loads` would give on it
(`none` = decode error), consulted only when `stderr` is nonempty. -/
structure Capture where
  filename : String
  stdout : String
  stderr : String
  parse : Option ToolResult
deriving DecidableEq, Repr

/-- The run's observable state: rows appended to `test.tsv`, the success
counter, and the console prints (skipped captures' stdout, and the counter
values printed after each row). -/
structure RunState where
  rows : List Row
  counter : Nat
  stdoutPrints : List String
  counterPrints : List Nat
deriving DecidableEq, Repr

/-- Lines 18-19: `open("test.tsv", "w")` truncates the report, the counter
starts at zero. -/
def initState : RunState :=
  { rows := [], counter := 0, stdoutPrints := [], counterPrints := [] }

/-- Lines 56-100, one capture: filtered-out files are ignored; an empty
diagnostic channel prints stdout and skips; otherwise the channel must parse
(else `json.loads` raises), the row is built, appended, and the counter is
incremented and printed. -/
def processCapture (t : Targets) (c : Capture) (st : RunState) :
    Except PyError RunState :=
  if !captureSelected c.filename then .ok st
  else if c.stderr = "" then
    .ok { st with stdoutPrints := st.stdoutPrints ++ [c.stdout] }
  else
    match c.parse with
    | none => .error .jsonDecodeError
    | some res =>
      match makeRow t res c.filename with
      | .error err => .error err
      | .ok row =>
        .ok { st with rows := st.rows ++ [row]
                      counter := st.counter + 1
                      counterPrints := st.counterPrints ++ [st.counter + 1] }

/-- The inner capture loop.  An exception stops the run; the state reached so
far (the rows already written) is returned with it. -/
def runCaptures (t : Targets) : List Capture → RunState →
    RunState × Option PyError
  | [], st => (st, none)
  | c :: cs, st =>
    match processCapture t c st with
    | .error e => (st, some e)
    | .ok st' => runCaptures t cs st'

/-- One plot directory after the geojson stage (lines 21-35): the measurement
entries of its ground-truth record and its capture invocations. -/
structure Plot where
  entries : List Entry
  captures : List Capture
deriving DecidableEq, Repr

/-- Lines 36-100 for one plot: locate the FI entry (skip the plot when there
is none), then run every capture. -/
def processPlot (p : Plot) (st : RunState) : RunState × Option PyError :=
  match findFI p.entries with
  | .error e => (st, some e)
  | .ok none => (st, none)
  | .ok (some t) => runCaptures t p.captures st

/-- The outer walk (line 21): process plots in order until done or an
exception propagates. -/
def runPlots : List Plot → RunState → RunState × Option PyError
  | [], st => (st, none)
  | p :: ps, st =>
    match processPlot p st with
    | (st', some e) => (st', some e)
    | (st', none) => runPlots ps st'

/-! ### Helper lemmas -/

/-- A leaf that tests equal to the empty string renders as the empty
string. -/
theorem render_of_emptyStr {v : JVal} (h : jvalIsEmptyStr v = true) :
    v.render = "" := by
  cases v with
  | str s => simpa [jvalIsEmptyStr, JVal.render] using h
  | num s => simp [jvalIsEmptyStr] at h

/-- Rendering a string leaf gives the string back. -/
theorem render_str (s : String) : (JVal.str s).render = s := rfl

/-- A successful capture step either leaves the report and counter untouched
or appends exactly one row, increments the counter once, and prints the new
counter value. -/
theorem processCapture_step (t : Targets) (c : Capture) (st st' : RunState)
    (h : processCapture t c st = .ok st') :
    (st'.rows = st.rows ∧ st'.counter = st.counter ∧
      st'.counterPrints = st.counterPrints) ∨
    ∃ r, st'.rows = st.rows ++ [r] ∧ st'.counter = st.counter + 1 ∧
      st'.counterPrints = st.counterPrints ++ [st.counter + 1] := by
  unfold processCapture at h
  split at h
  · injection h with h; subst h; exact Or.inl ⟨rfl, rfl, rfl⟩
  · split at h
    · injection h with h; subst h; exact Or.inl ⟨rfl, rfl, rfl⟩
    · split at h
      · simp at h
      · split at h
        · simp at h
        · injection h with h; subst h; exact Or.inr ⟨_, rfl, rfl, rfl⟩

/-- The capture loop only appends rows, also when it stops on an
exception. -/
theorem runCaptures_rows_extend (t : Targets) (cs : List Capture)
    (st : RunState) :
    ∃ ext, ((runCaptures t cs st).1).rows = st.rows ++ ext := by
  induction cs generalizing st with
  | nil => exact ⟨[], by simp [runCaptures]⟩
  | cons c cs ih =>
    unfold runCaptures
    cases hp : processCapture t c st with
    | error e => exact ⟨[], by simp⟩
    | ok st' =>
      obtain ⟨ext, hext⟩ := ih st'
      rcases processCapture_step t c st st' hp with ⟨hr, _, _⟩ | ⟨r, hr, _, _⟩
      · exact ⟨ext, by rw [hext, hr]⟩
      · exact ⟨r :: ext, by rw [hext, hr]; simp⟩

/-- A plot only appends rows. -/
theorem processPlot_rows_extend (p : Plot) (st : RunState) :
    ∃ ext, ((processPlot p st).1).rows = st.rows ++ ext := by
  unfold processPlot
  cases hf : findFI p.entries with
  | error e => exact ⟨[], by simp⟩
  | ok o =>
    cases o with
    | none => exact ⟨[], by simp⟩
    | some t => exact runCaptures_rows_extend t p.captures st

/-- The whole run only appends rows. -/
theorem runPlots_rows_extend (ps : List Plot) (st : RunState) :
    ∃ ext, ((runPlots ps st).1).rows = st.rows ++ ext := by
  induction ps generalizing st with
  | nil => exact ⟨[], by simp [runPlots]⟩
  | cons p ps ih =>
    unfold runPlots
    obtain ⟨ext1, h1⟩ := processPlot_rows_extend p st
    cases hp : processPlot p st with
    | mk st' oe =>
      rw [hp] at h1
      cases oe with
      | some e => exact ⟨ext1, h1⟩
      | none =>
        obtain ⟨ext2, h2⟩ := ih st'
        exact ⟨ext1 ++ ext2, by rw [h2, h1, List.append_assoc]⟩

/-- The run invariant of claim C7: the counter equals the number of rows
written so far, and the printed counts so far are exactly `1, 2, …,
counter`. -/
def counterMatchesRows (st : RunState) : Prop :=
  st.counter = st.rows.length ∧ st.counterPrints = List.range' 1 st.counter

/-- One capture step preserves the counter invariant. -/
theorem processCapture_inv {t : Targets} {c : Capture} {st st' : RunState}
    (h : processCapture t c st = .ok st')
    (hinv : counterMatchesRows st) : counterMatchesRows st' := by
  rcases processCapture_step t c st st' h with ⟨h1, h2, h3⟩ | ⟨r, h1, h2, h3⟩
  · exact ⟨by rw [h2, h1]; exact hinv.1, by rw [h3, h2]; exact hinv.2⟩
  · constructor
    · rw [h2, h1, hinv.1]; simp
    · rw [h3, h2, hinv.2, hinv.1, List.range'_1_concat]
      simp [Nat.add_comm]

/-- The capture loop preserves the counter invariant (also on the state it
returns when aborting). -/
theorem runCaptures_inv {t : Targets} {cs : List Capture} {st : RunState}
    (hinv : counterMatchesRows st) :
    counterMatchesRows ((runCaptures t cs st).1) := by
  induction cs generalizing st with
  | nil => simpa [runCaptures] using hinv
  | cons c cs ih =>
    unfold runCaptures
    cases hp : processCapture t c st with
    | error e => simpa using hinv
    | ok st' => simpa using ih (processCapture_inv hp hinv)

/-- A plot preserves the counter invariant. -/
theorem processPlot_inv {p : Plot} {st : RunState}
    (hinv : counterMatchesRows st) :
    counterMatchesRows ((processPlot p st).1) := by
  unfold processPlot
  cases hf : findFI p.entries with
  | error e => simpa using hinv
  | ok o =>
    cases o with
    | none => simpa using hinv
    | some t => exact runCaptures_inv hinv

/-- The whole run preserves the counter invariant. -/
theorem runPlots_inv {ps : List Plot} {st : RunState}
    (hinv : counterMatchesRows st) :
    counterMatchesRows ((runPlots ps st).1) := by
  induction ps generalizing st with
  | nil => simpa [runPlots] using hinv
  | cons p ps ih =>
    unfold runPlots
    have h1 := @processPlot_inv p st hinv
    cases hp : processPlot p st with
    | mk st' oe =>
      rw [hp] at h1
      cases oe with
      | some e => simpa using h1
      | none => simpa using ih h1

/-- A rejected extraction of the head FI entry aborts the scan. -/
theorem findFI_error_head {e : Entry} (rest : List Entry) {err : PyError}
    (hfi : isFI e = true) (hx : extractEntry e = .error err) :
    findFI (e :: rest) = .error err := by
  simp [findFI, hfi, hx]

/-- The row built for a capture carries the platform padding of its
filename. -/
theorem makeRow_padding {t : Targets} {res : ToolResult} {f : String}
    {r : Row} (h : makeRow t res f = .ok r) :
    r.before = (padding f).1 ∧ r.after = (padding f).2 := by
  unfold makeRow at h
  split at h
  · simp at h
  · split at h
    · simp at h
    · split at h
      · simp at h
      · split at h
        · simp at h
        · injection h with h; subst h; exact ⟨rfl, rfl⟩

/-- The masking rule as one function: the (target text, estimate text) pair
for a target leaf and the tool's reported leaf. -/
def reconciledPair (target v : JVal) : String × String :=
  if jvalIsEmptyStr target then ("", "") else (target.render, v.render)

/-! ### Concrete fixtures used by witnesses -/

/-- A representative FI ground-truth entry with all four keys present. -/
def sampleEntry : Entry :=
  { source := some (JVal.str "FI"), dbh := some (JVal.num "30.0"),
    crownBaseHeight := some (JVal.str "5.5"), height := some (JVal.num "18.5"),
    crownDiameter := some (JVal.num "5.0") }

/-- The targets loaded from `sampleEntry`. -/
def sampleTargets : Targets :=
  { trunkDiameter := JVal.num "30.0", crownHeight := JVal.str "5.5",
    height := JVal.num "18.5", crownDiameter := JVal.num "5.0" }

/-- A representative parsed tool result with all four keys present. -/
def sampleTool : ToolResult :=
  { dbh := some (JVal.num "28.7"), crownBaseHeight := some (JVal.num "6.0"),
    height := some (JVal.num "18.0"), crownDiameter := some (JVal.num "4.8") }

/-- A capture whose diagnostic channel is nonempty but not parseable. -/
def sampleBadCapture : Capture :=
  { filename := "p_ALS.laz", stdout := "noise", stderr := "notjson",
    parse := none }

/-- A capture whose diagnostic channel is empty (no single tree found). -/
def sampleSkipCapture : Capture :=
  { filename := "p_ULS.laz", stdout := "no tree", stderr := "",
    parse := none }

/-- A capture that succeeds with `sampleTool` as its parsed result. -/
def sampleGoodCapture : Capture :=
  { filename := "p_ALS.laz", stdout := "", stderr := "json",
    parse := some sampleTool }

/-- The row produced for `sampleTargets`, `sampleTool` and an ALS capture. -/
def sampleRow : Row :=
  { trunkPair := ("30.0", "28.7"), crownHeightPair := ("5.5", "6.0"),
    heightPair := ("18.5", "18.0"), crownDiameterPair := ("5.0", "4.8"),
    before := "", after := "\t\t" }

/-! ### Claims -/

/-- C1 (corrected), counterexample to the claim as stated: on the spec's own
end-to-end example — ground truth `DBH_cm = 30.0`,
`crown_base_height_m = "NA"`, `height_m = 18.5`,
`mean_crown_diameter_m = 5.0`, ALS tool result `28.7 / 6.0 / 18.0 / 4.8` —
the crown-base-height pair of the written row is `("NA", "6.0")`, not
`("", "")`: the loader never compares `crown_base_height_m` (nor `DBH_cm`)
against the `"NA"` sentinel, so the claim "each of the four metrics whose
raw value is `"NA"` is loaded as absent" is false. -/
theorem C1_counterexample :
    ((runPlots
        [{ entries :=
             [{ source := some (JVal.str "FI"), dbh := some (JVal.num "30.0"),
                crownBaseHeight := some (JVal.str "NA"),
                height := some (JVal.num "18.5"),
                crownDiameter := some (JVal.num "5.0") }],
           captures :=
             [{ filename := "BR01_ALS.laz", stdout := "", stderr := "json",
                parse := some { dbh := some (JVal.num "28.7"),
                                crownBaseHeight := some (JVal.num "6.0"),
                                height := some (JVal.num "18.0"),
                                crownDiameter := some (JVal.num "4.8") } }] }]
        initState).1.rows.map Row.pairs =
      [[("30.0", "28.7"), ("NA", "6.0"), ("18.5", "18.0"), ("5.0", "4.8")]])
    ∧ (("NA", "6.0") : String × String) ≠ ("", "") :=
  ⟨rfl, by decide⟩

/-- C1 (amended): only `height_m` and `mean_crown_diameter_m` are compared
against the `"NA"` sentinel; for those two an `"NA"` raw value is loaded as
absent (empty) and the reconciled estimate is empty regardless of the tool's
value.  `crown_base_height_m` is only checked for a `"-"`, so a raw value of
`"NA"` is kept verbatim, and (being nonempty) its estimate is the tool's
reported value; `DBH_cm` is never normalized at all. -/
theorem C1_na_sentinel_partial (td : JVal) (res : ToolResult) (v : JVal)
    (hch : res.crownBaseHeight = some v) :
    normalizeTargets td (JVal.str "NA") (JVal.str "NA") (JVal.str "NA") =
      .ok ⟨td, JVal.str "NA", JVal.str "", JVal.str ""⟩ ∧
    maskEstimate (JVal.str "") res.height "height_m" = .ok (JVal.str "") ∧
    maskEstimate (JVal.str "") res.crownDiameter "mean_crown_diameter_m" =
      .ok (JVal.str "") ∧
    maskEstimate (JVal.str "NA") res.crownBaseHeight "crown_base_height_m" =
      .ok v := by
  refine ⟨?_, ?_, ?_, ?_⟩
  · simp [normalizeTargets, containsDash, jvalEqStr, strContains, infixList,
      leadsList]
  · simp [maskEstimate, jvalIsEmptyStr]
  · simp [maskEstimate, jvalIsEmptyStr]
  · simp [maskEstimate, jvalIsEmptyStr, hch, getKey]

/-- Witness for C1_na_sentinel_partial at the spec example's values. -/
theorem C1_na_sentinel_partial_witness :
    normalizeTargets (JVal.num "30.0") (JVal.str "NA") (JVal.str "NA")
        (JVal.str "NA") =
      .ok ⟨JVal.num "30.0", JVal.str "NA", JVal.str "", JVal.str ""⟩ ∧
    maskEstimate (JVal.str "") sampleTool.height "height_m" =
      .ok (JVal.str "") ∧
    maskEstimate (JVal.str "") sampleTool.crownDiameter
        "mean_crown_diameter_m" = .ok (JVal.str "") ∧
    maskEstimate (JVal.str "NA") sampleTool.crownBaseHeight
        "crown_base_height_m" = .ok (JVal.num "6.0") :=
  C1_na_sentinel_partial (JVal.num "30.0") sampleTool (JVal.num "6.0") rfl

/-- C2: for every target set and every parsed tool result carrying the four
metric keys, the built row's pairs are, in the fixed order trunk diameter,
crown base height, height, crown diameter, exactly `(target text, tool
value)` when the target is present and `("", "")` when it is absent. -/
theorem C2_reconciler_masking (t : Targets) (f : String)
    (vd vch vh vcd : JVal) :
    ∃ r, makeRow t ⟨some vd, some vch, some vh, some vcd⟩ f = .ok r ∧
      Row.pairs r =
        [reconciledPair t.trunkDiameter vd, reconciledPair t.crownHeight vch,
         reconciledPair t.height vh, reconciledPair t.crownDiameter vcd] := by
  by_cases h1 : jvalIsEmptyStr t.trunkDiameter = true <;>
  by_cases h2 : jvalIsEmptyStr t.crownHeight = true <;>
  by_cases h3 : jvalIsEmptyStr t.height = true <;>
  by_cases h4 : jvalIsEmptyStr t.crownDiameter = true <;>
  simp [makeRow, maskEstimate, getKey, Row.pairs, reconciledPair,
    h1, h2, h3, h4, render_of_emptyStr, render_str]

/-- C3: a selected capture whose diagnostic channel is nonempty but fails to
parse makes `json.loads` raise: the capture step raises, the capture loop
stops at that pairing with the report exactly as it was before it, ignoring
every later capture, and the whole run aborts likewise. -/
theorem C3_malformed_diag_fatal (t : Targets) (c : Capture)
    (cs : List Capture) (st : RunState) (p : Plot) (ps : List Plot)
    (hsel : captureSelected c.filename = true) (hne : c.stderr ≠ "")
    (hparse : c.parse = none)
    (hent : findFI p.entries = .ok (some t)) (hcap : p.captures = c :: cs) :
    processCapture t c st = .error .jsonDecodeError ∧
    runCaptures t (c :: cs) st = (st, some .jsonDecodeError) ∧
    runPlots (p :: ps) st = (st, some .jsonDecodeError) := by
  have h1 : processCapture t c st = .error .jsonDecodeError := by
    simp [processCapture, hsel, hne, hparse]
  have h2 : runCaptures t (c :: cs) st = (st, some .jsonDecodeError) := by
    simp [runCaptures, h1]
  exact ⟨h1, h2, by simp [runPlots, processPlot, hent, hcap, h2]⟩

/-- Witness for C3_malformed_diag_fatal: a concrete unparseable diagnostic
aborts the whole run with the report untouched. -/
theorem C3_malformed_diag_fatal_witness :
    runPlots [{ entries := [sampleEntry], captures := [sampleBadCapture] }]
      initState = (initState, some .jsonDecodeError) :=
  (C3_malformed_diag_fatal sampleTargets sampleBadCapture [] initState
    { entries := [sampleEntry], captures := [sampleBadCapture] } []
    (by decide) (by decide) rfl rfl rfl).2.2

/-- C4: a selected capture whose diagnostic channel is empty is a non-fatal
skip: its stdout is printed, no row is written, the counter is unchanged, no
exception is raised, and the loop continues with the remaining captures. -/
theorem C4_empty_diag_skip (t : Targets) (c : Capture) (cs : List Capture)
    (st : RunState) (hsel : captureSelected c.filename = true)
    (hemp : c.stderr = "") :
    processCapture t c st =
      .ok { st with stdoutPrints := st.stdoutPrints ++ [c.stdout] } ∧
    runCaptures t (c :: cs) st =
      runCaptures t cs
        { st with stdoutPrints := st.stdoutPrints ++ [c.stdout] } := by
  have h1 : processCapture t c st =
      .ok { st with stdoutPrints := st.stdoutPrints ++ [c.stdout] } := by
    simp [processCapture, hsel, hemp]
  exact ⟨h1, by simp [runCaptures, h1]⟩

/-- Witness for C4_empty_diag_skip: a concrete empty-diagnostic capture only
prints its stdout and the loop moves on. -/
theorem C4_empty_diag_skip_witness :
    processCapture sampleTargets sampleSkipCapture initState =
      .ok { initState with stdoutPrints := ["no tree"] } ∧
    runCaptures sampleTargets [sampleSkipCapture] initState =
      runCaptures sampleTargets []
        { initState with stdoutPrints := ["no tree"] } :=
  C4_empty_diag_skip sampleTargets sampleSkipCapture [] initState
    (by decide) rfl

/-- C5: the padding runs around each estimate depend only on the filename's
platform tag — `ALS` gives no leading and two trailing tabs, `ULS` without
`ALS` one and one, and anything else (`TLS` included) two leading and none —
and every built row carries exactly that padding, applied identically to all
four metric cells of its rendered text. -/
theorem C5_platform_padding (f : String) :
    (strContains f "ALS" = true → padding f = ("", "\t\t")) ∧
    (strContains f "ALS" = false → strContains f "ULS" = true →
      padding f = ("\t", "\t")) ∧
    (strContains f "ALS" = false → strContains f "ULS" = false →
      padding f = ("\t\t", "")) ∧
    (∀ (t : Targets) (res : ToolResult) (r : Row),
      makeRow t res f = .ok r →
      r.before = (padding f).1 ∧ r.after = (padding f).2 ∧
      Row.render r =
        renderCell r.trunkPair (padding f).1 (padding f).2 "\t" ++
        renderCell r.crownHeightPair (padding f).1 (padding f).2 "\t" ++
        renderCell r.heightPair (padding f).1 (padding f).2 "\t" ++
        renderCell r.crownDiameterPair (padding f).1 (padding f).2 "\n") := by
  refine ⟨fun h => by simp [padding, h],
    fun h1 h2 => by simp [padding, h1, h2],
    fun h1 h2 => by simp [padding, h1, h2],
    fun t res r h => ?_⟩
  obtain ⟨hb, ha⟩ := makeRow_padding h
  exact ⟨hb, ha, by rw [Row.render, hb, ha]⟩

/-- Witness for C5_platform_padding on concrete ALS, ULS and TLS
filenames. -/
theorem C5_platform_padding_witness :
    padding "p_ALS.laz" = ("", "\t\t") ∧
    padding "p_ULS.laz" = ("\t", "\t") ∧
    padding "p_TLS.laz" = ("\t\t", "") :=
  ⟨(C5_platform_padding "p_ALS.laz").1 (by decide),
   (C5_platform_padding "p_ULS.laz").2.1 (by decide) (by decide),
   (C5_platform_padding "p_TLS.laz").2.2.1 (by decide) (by decide)⟩

/-- C6: a crown-base-height raw string containing the separator `"-"` is
loaded as absent (empty) whatever the other fields are, and an absent target
always masks its estimate to empty. -/
theorem C6_dash_crown_absent (td hv cd : JVal) (s : String)
    (field : Option JVal) (k : String) (hdash : strContains s "-" = true) :
    normalizeTargets td (JVal.str s) hv cd =
      .ok ⟨td, JVal.str "",
           if jvalEqStr hv "NA" then JVal.str "" else hv,
           if jvalEqStr cd "NA" then JVal.str "" else cd⟩ ∧
    maskEstimate (JVal.str "") field k = .ok (JVal.str "") := by
  constructor
  · simp [normalizeTargets, containsDash, hdash]
  · simp [maskEstimate, jvalIsEmptyStr]

/-- Witness for C6_dash_crown_absent on a concrete range token. -/
theorem C6_dash_crown_absent_witness :
    normalizeTargets (JVal.num "30.0") (JVal.str "5.5-6.5") (JVal.num "18.5")
        (JVal.num "5.0") =
      .ok ⟨JVal.num "30.0", JVal.str "",
           if jvalEqStr (JVal.num "18.5") "NA" then JVal.str ""
           else JVal.num "18.5",
           if jvalEqStr (JVal.num "5.0") "NA" then JVal.str ""
           else JVal.num "5.0"⟩ ∧
    maskEstimate (JVal.str "") sampleTool.crownBaseHeight
      "crown_base_height_m" = .ok (JVal.str "") :=
  C6_dash_crown_absent (JVal.num "30.0") (JVal.num "18.5") (JVal.num "5.0")
    "5.5-6.5" sampleTool.crownBaseHeight "crown_base_height_m" (by decide)

/-- C7: the success counter starts at zero; a capture step that increments it
does so by exactly one while appending exactly one row and printing the new
count, and a step that leaves it unchanged writes no row; hence at every
reachable state the counter equals the number of rows written and the
printed count sequence is `1, 2, …`, strictly increasing. -/
theorem C7_counter_tracks_rows :
    initState.counter = 0 ∧
    counterMatchesRows initState ∧
    (∀ (t : Targets) (c : Capture) (st st' : RunState),
      processCapture t c st = .ok st' → counterMatchesRows st →
      counterMatchesRows st' ∧
      (st'.counter = st.counter + 1 →
        ∃ r, st'.rows = st.rows ++ [r] ∧
          st'.counterPrints = st.counterPrints ++ [st.counter + 1]) ∧
      (st'.counter = st.counter → st'.rows = st.rows)) ∧
    (∀ ps : List Plot,
      ((runPlots ps initState).1).counter =
        ((runPlots ps initState).1).rows.length) ∧
    (∀ ps : List Plot,
      ((runPlots ps initState).1).counterPrints.Pairwise (· < ·)) := by
  refine ⟨rfl, ⟨rfl, rfl⟩, ?_, ?_, ?_⟩
  · intro t c st st' h hinv
    refine ⟨processCapture_inv h hinv, ?_, ?_⟩
    · intro hc
      rcases processCapture_step t c st st' h with ⟨h1, h2, h3⟩ |
        ⟨r, h1, h2, h3⟩
      · rw [h2] at hc; exact absurd hc (by omega)
      · exact ⟨r, h1, h3⟩
    · intro hc
      rcases processCapture_step t c st st' h with ⟨h1, h2, h3⟩ |
        ⟨r, h1, h2, h3⟩
      · exact h1
      · rw [h2] at hc; exact absurd hc (by omega)
  · intro ps; exact (runPlots_inv ⟨rfl, rfl⟩).1
  · intro ps
    have h := (@runPlots_inv ps initState ⟨rfl, rfl⟩).2
    rw [h]
    exact List.pairwise_lt_range' 1 _ 1 (by simp)

/-- Witness for C7_counter_tracks_rows: one concrete successful capture step
from the initial state appends one row while moving the counter to 1 and
printing 1. -/
theorem C7_counter_tracks_rows_witness :
    counterMatchesRows (RunState.mk [sampleRow] 1 [] [1]) ∧
    ((RunState.mk [sampleRow] 1 [] [1]).counter = initState.counter + 1 →
      ∃ r, (RunState.mk [sampleRow] 1 [] [1]).rows = initState.rows ++ [r] ∧
        (RunState.mk [sampleRow] 1 [] [1]).counterPrints =
          initState.counterPrints ++ [initState.counter + 1]) ∧
    ((RunState.mk [sampleRow] 1 [] [1]).counter = initState.counter →
      (RunState.mk [sampleRow] 1 [] [1]).rows = initState.rows) :=
  C7_counter_tracks_rows.2.2.1 sampleTargets sampleGoodCapture initState
    (RunState.mk [sampleRow] 1 [] [1]) rfl ⟨rfl, rfl⟩

/-- C8 (implicit): the loader indexes the four metric keys of the selected FI
entry without guarding, so if any of them is missing a `KeyError` is raised
and the whole run aborts at that plot instead of skipping it. -/
theorem C8_missing_key_aborts (e : Entry) (rest : List Entry)
    (caps : List Capture) (ps : List Plot) (st : RunState)
    (hfi : isFI e = true)
    (hmiss : e.dbh = none ∨ e.crownBaseHeight = none ∨ e.height = none ∨
      e.crownDiameter = none) :
    ∃ k, extractEntry e = .error (.keyError k) ∧
      runPlots ({ entries := e :: rest, captures := caps } :: ps) st =
        (st, some (.keyError k)) := by
  have habort : ∀ k, extractEntry e = .error (.keyError k) →
      runPlots ({ entries := e :: rest, captures := caps } :: ps) st =
        (st, some (.keyError k)) := by
    intro k hx
    have hf := findFI_error_head rest hfi hx
    simp [runPlots, processPlot, hf]
  cases hd : e.dbh with
  | none =>
    have hx : extractEntry e = .error (.keyError "DBH_cm") := by
      simp [extractEntry, getKey, hd]
    exact ⟨_, hx, habort _ hx⟩
  | some td =>
    cases hch : e.crownBaseHeight with
    | none =>
      have hx : extractEntry e = .error (.keyError "crown_base_height_m") := by
        simp [extractEntry, getKey, hd, hch]
      exact ⟨_, hx, habort _ hx⟩
    | some ch =>
      cases hh : e.height with
      | none =>
        have hx : extractEntry e = .error (.keyError "height_m") := by
          simp [extractEntry, getKey, hd, hch, hh]
        exact ⟨_, hx, habort _ hx⟩
      | some hv =>
        cases hcd : e.crownDiameter with
        | none =>
          have hx : extractEntry e =
              .error (.keyError "mean_crown_diameter_m") := by
            simp [extractEntry, getKey, hd, hch, hh, hcd]
          exact ⟨_, hx, habort _ hx⟩
        | some cdv =>
          rcases hmiss with h | h | h | h
          · rw [h] at hd; cases hd
          · rw [h] at hch; cases hch
          · rw [h] at hh; cases hh
          · rw [h] at hcd; cases hcd

/-- Witness for C8_missing_key_aborts: an FI entry lacking
`crown_base_height_m` kills the run with a `KeyError`. -/
theorem C8_missing_key_aborts_witness :
    ∃ k,
      extractEntry
          { source := some (JVal.str "FI"), dbh := some (JVal.num "30.0"),
            crownBaseHeight := none, height := some (JVal.num "18.5"),
            crownDiameter := some (JVal.num "5.0") } =
        .error (.keyError k) ∧
      runPlots
          ({ entries :=
               [{ source := some (JVal.str "FI"),
                  dbh := some (JVal.num "30.0"), crownBaseHeight := none,
                  height := some (JVal.num "18.5"),
                  crownDiameter := some (JVal.num "5.0") }],
             captures := [sampleGoodCapture] } :: []) initState =
        (initState, some (.keyError k)) :=
  C8_missing_key_aborts
    { source := some (JVal.str "FI"), dbh := some (JVal.num "30.0"),
      crownBaseHeight := none, height := some (JVal.num "18.5"),
      crownDiameter := some (JVal.num "5.0") }
    [] [sampleGoodCapture] [] initState (by decide)
    (Or.inr (Or.inl rfl))

/-- C9 (implicit): the `"-"` membership test is only defined on strings — an
FI entry whose `crown_base_height_m` is a JSON number makes it raise
`TypeError` and abort the whole run — and any string containing `"-"`
(a negative single number included) is loaded as absent, not only range
tokens. -/
theorem C9_nonstring_crown_dash (td hv cd : JVal) (s : String) (e : Entry)
    (rest : List Entry) (caps : List Capture) (ps : List Plot)
    (st : RunState) (hfi : isFI e = true) (hd : e.dbh = some td)
    (hch : e.crownBaseHeight = some (JVal.num s)) (hh : e.height = some hv)
    (hcd : e.crownDiameter = some cd) :
    normalizeTargets td (JVal.num s) hv cd = .error .typeError ∧
    extractEntry e = .error .typeError ∧
    runPlots ({ entries := e :: rest, captures := caps } :: ps) st =
      (st, some .typeError) ∧
    (∀ s' : String, strContains s' "-" = true →
      normalizeTargets td (JVal.str s') hv cd =
        .ok ⟨td, JVal.str "",
             if jvalEqStr hv "NA" then JVal.str "" else hv,
             if jvalEqStr cd "NA" then JVal.str "" else cd⟩) := by
  have h1 : normalizeTargets td (JVal.num s) hv cd = .error .typeError := by
    simp [normalizeTargets, containsDash]
  have h2 : extractEntry e = .error .typeError := by
    simp [extractEntry, getKey, hd, hch, hh, hcd, h1]
  refine ⟨h1, h2, ?_, ?_⟩
  · have hf := findFI_error_head rest hfi h2
    simp [runPlots, processPlot, hf]
  · intro s' hdash
    simp [normalizeTargets, containsDash, hdash]

/-- Witness for C9_nonstring_crown_dash: a numeric crown base height of 6.0
aborts the run, and the negative single number "-3.5" is loaded as
absent. -/
theorem C9_nonstring_crown_dash_witness :
    normalizeTargets (JVal.num "30.0") (JVal.num "6.0") (JVal.num "18.5")
        (JVal.num "5.0") = .error .typeError ∧
    runPlots
        ({ entries :=
             [{ source := some (JVal.str "FI"),
                dbh := some (JVal.num "30.0"),
                crownBaseHeight := some (JVal.num "6.0"),
                height := some (JVal.num "18.5"),
                crownDiameter := some (JVal.num "5.0") }],
           captures := [sampleGoodCapture] } :: []) initState =
      (initState, some .typeError) ∧
    normalizeTargets (JVal.num "30.0") (JVal.str "-3.5") (JVal.num "18.5")
        (JVal.num "5.0") =
      .ok ⟨JVal.num "30.0", JVal.str "",
           if jvalEqStr (JVal.num "18.5") "NA" then JVal.str ""
           else JVal.num "18.5",
           if jvalEqStr (JVal.num "5.0") "NA" then JVal.str ""
           else JVal.num "5.0"⟩ :=
  have h := C9_nonstring_crown_dash (JVal.num "30.0") (JVal.num "18.5")
    (JVal.num "5.0") "6.0"
    { source := some (JVal.str "FI"), dbh := some (JVal.num "30.0"),
      crownBaseHeight := some (JVal.num "6.0"),
      height := some (JVal.num "18.5"),
      crownDiameter := some (JVal.num "5.0") }
    [] [sampleGoodCapture] [] initState (by decide) rfl rfl rfl rfl
  ⟨h.1, h.2.2.1, h.2.2.2 "-3.5" (by decide)⟩

/-- C10 (implicit): the report starts empty (the single truncating open), a
capture step either writes nothing or appends exactly one complete row, and
every run — aborted or not — leaves the report equal to what it was at its
start followed by the rows appended since. -/
theorem C10_report_truncate_append_only :
    initState.rows = [] ∧
    (∀ (t : Targets) (c : Capture) (st st' : RunState),
      processCapture t c st = .ok st' →
      st'.rows = st.rows ∨ ∃ r, st'.rows = st.rows ++ [r]) ∧
    (∀ (ps : List Plot) (st : RunState),
      ∃ ext, ((runPlots ps st).1).rows = st.rows ++ ext) := by
  refine ⟨rfl, ?_, runPlots_rows_extend⟩
  intro t c st st' h
  rcases processCapture_step t c st st' h with ⟨h1, _, _⟩ | ⟨r, h1, _, _⟩
  · exact Or.inl h1
  · exact Or.inr ⟨r, h1⟩

/-- Witness for C10_report_truncate_append_only: a concrete skip step leaves
the report unchanged. -/
theorem C10_report_truncate_append_only_witness :
    ({ initState with stdoutPrints := ["no tree"] } : RunState).rows =
      initState.rows ∨
    ∃ r, ({ initState with stdoutPrints := ["no tree"] } : RunState).rows =
      initState.rows ++ [r] :=
  C10_report_truncate_append_only.2.1 sampleTargets sampleSkipCapture
    initState { initState with stdoutPrints := ["no tree"] } rfl
